import Mathlib

/-!
Verification of the `set_host` middleware of `tower-http`
(`src/tower-http/src/set_host.rs`), a middleware that inserts a `Host`
header derived from the request URI when none is present.

The embedding models:
* `Uri` — the fields of `http::Uri` that the middleware reads
  (`scheme_str()`, `host()`, `port()`);
* a header collection as an ordered association list with
  case-insensitive names and `entry(..).or_insert_with(..)` semantics;
* `HeaderValue::from_str` as a validity check returning `Option`;
* the two panic sites (`expect("authority implies host")` and
  `expect("uri host is valid header value")`) as `none` results: a
  `none` outcome of `SetHost.call` is the abort of the call path.
-/

/-- A polled readiness result, mirroring `std::task::Poll`. -/
inductive Poll (α : Type) where
  | ready (value : α)
  | pending
  deriving DecidableEq

/-- The fields of `http::Uri` read by the middleware: `scheme_str()`,
`host()` and `port().map(|p| p.as_u16())`. -/
structure Uri where
  scheme : Option String
  host : Option String
  port : Option Nat
  deriving DecidableEq

/-- Header names compare case-insensitively (`http::HeaderMap` keys). -/
def headerNameEq (a b : String) : Bool :=
  a.data.map Char.toLower == b.data.map Char.toLower

/-- An ordered header collection: a list of name/value pairs. -/
abbrev HeaderMap : Type := List (String × String)

/-- `HeaderMap::contains_key` with case-insensitive names. -/
def HeaderMap.containsKey (hs : HeaderMap) (name : String) : Bool :=
  hs.any (fun h => headerNameEq h.fst name)

/-- First value stored under a (case-insensitive) header name. -/
def HeaderMap.get (hs : HeaderMap) (name : String) : Option String :=
  (hs.find? (fun h => headerNameEq h.fst name)).map (fun h => h.snd)

/-- The headers other than the one named: used to state frame effects. -/
def HeaderMap.eraseAll (hs : HeaderMap) (name : String) : HeaderMap :=
  hs.filter (fun h => !headerNameEq h.fst name)

/-- `entry(name).or_insert_with(f)`: when the name is present the map is
unchanged and `f` is never evaluated; when absent, `f ()` is inserted at
the end.  `f` returning `none` models a panic inside the closure, which
propagates. -/
def HeaderMap.entryOrInsertWith (hs : HeaderMap) (name : String)
    (f : Unit → Option String) : Option HeaderMap :=
  if hs.containsKey name then some hs
  else
    match f () with
    | some v => some (hs ++ [(name, v)])
    | none => none

/-- A byte is a legal `http::HeaderValue` byte iff it is `\t` or in
`32..=255` excluding 127; on `char`s every codepoint ≥ 128 encodes to
bytes ≥ 128, hence is legal. -/
def isValidHeaderValueChar (c : Char) : Bool :=
  (32 ≤ c.toNat && c.toNat != 127) || c == '\t'

/-- Whether a string is accepted by `HeaderValue::from_str`. -/
def isValidHeaderValue (s : String) : Bool :=
  s.data.all isValidHeaderValueChar

/-- `HeaderValue::from_str`: `some` on valid input, `none` on error. -/
def HeaderValue.from_str (s : String) : Option String :=
  if isValidHeaderValue s then some s else none

/-- An HTTP request carrying a body of type `β`. -/
structure Request (β : Type) where
  method : String
  uri : Uri
  version : String
  headers : HeaderMap
  body : β
  deriving DecidableEq

/-- Source `is_schema_secure`:
`uri.scheme_str().map(|s| matches!(s, "wss" | "https")).unwrap_or_default()`.
The match is an exact string comparison. -/
def is_schema_secure (uri : Uri) : Bool :=
  (uri.scheme.map (fun scheme_str => scheme_str == "wss" || scheme_str == "https")).getD false

/-- Source `get_non_default_port`: suppress 443 on a secure scheme and
80 on a non-secure one, otherwise return the explicit port. -/
def get_non_default_port (uri : Uri) : Option Nat :=
  match uri.port, is_schema_secure uri with
  | some 443, true => none
  | some 80, false => none
  | _, _ => uri.port

/-- The string formatted by the `or_insert_with` closure once the host
is known: `format!("{}:{}", hostname, port)` when `get_non_default_port`
yields a port, the bare hostname otherwise. -/
def hostHeaderString (hostname : String) (uri : Uri) : String :=
  match get_non_default_port uri with
  | some port => hostname ++ ":" ++ toString port
  | none => hostname

/-- Body of the `or_insert_with` closure in `SetHost::call`.  `none`
models reaching a panic: either `uri.host()` is absent
(`expect("authority implies host")`) or the formatted string is not a
valid header value (`expect("uri host is valid header value")`). -/
def resolveHost (uri : Uri) : Option String :=
  match uri.host with
  | some hostname => HeaderValue.from_str (hostHeaderString hostname uri)
  | none => none

/-- The middleware: holds exactly the inner service. -/
structure SetHost (S : Type) where
  inner : S

/-- `SetHostLayer::layer`: wrap the inner service. -/
def SetHostLayer.layer (inner : S) : SetHost S :=
  { inner := inner }

/-- An inner service: a readiness check over an abstract context `κ`
and a call producing a result of type `γ` (for `tower`, `γ` is the
response future; errors have type `ε`). -/
structure Service (β γ ε κ : Type) where
  pollReady : κ → Poll (Except ε Unit)
  call : Request β → γ

/-- `SetHost::poll_ready`: `self.inner.poll_ready(cx)`. -/
def SetHost.poll_ready (m : SetHost (Service β γ ε κ)) (cx : κ) :
    Poll (Except ε Unit) :=
  m.inner.pollReady cx

/-- The request mutation performed by `SetHost::call` before
delegation: clone the URI, then
`req.headers_mut().entry(HOST).or_insert_with(closure)`.
`none` models a panic escaping the closure. -/
def setHostRequest (req : Request β) : Option (Request β) :=
  let uri := req.uri
  match req.headers.entryOrInsertWith "host" (fun _ => resolveHost uri) with
  | some hs => some { req with headers := hs }
  | none => none

/-- `SetHost::call`: mutate the headers, then `self.inner.call(req)`,
returning the inner future verbatim.  `none` models the panic path. -/
def SetHost.call (m : SetHost (Service β γ ε κ)) (req : Request β) :
    Option γ :=
  match setHostRequest req with
  | some r => some (m.inner.call r)
  | none => none

/-- The spec's wording of the secure-scheme test: the scheme compared
case-insensitively against "https" and "wss".  Stated for comparison
with the source's `is_schema_secure` (claim C4). -/
def is_secure_scheme_spec (uri : Uri) : Bool :=
  (uri.scheme.map
    (fun s => s.data.map Char.toLower == "wss".data ||
      s.data.map Char.toLower == "https".data)).getD false

/-! ### Helper lemmas -/

theorem entryOrInsertWith_of_containsKey (hs : HeaderMap) (name : String)
    (f : Unit → Option String) (h : hs.containsKey name = true) :
    hs.entryOrInsertWith name f = some hs := by
  unfold HeaderMap.entryOrInsertWith
  simp [h]

theorem entryOrInsertWith_of_absent (hs : HeaderMap) (name : String)
    (f : Unit → Option String) (v : String)
    (h : hs.containsKey name = false) (hf : f () = some v) :
    hs.entryOrInsertWith name f = some (hs ++ [(name, v)]) := by
  unfold HeaderMap.entryOrInsertWith
  simp [h, hf]

theorem entryOrInsertWith_of_absent_panic (hs : HeaderMap) (name : String)
    (f : Unit → Option String)
    (h : hs.containsKey name = false) (hf : f () = none) :
    hs.entryOrInsertWith name f = none := by
  unfold HeaderMap.entryOrInsertWith
  simp [h, hf]

theorem setHostRequest_of_containsKey (req : Request β)
    (h : req.headers.containsKey "host" = true) :
    setHostRequest req = some req := by
  simp only [setHostRequest]
  rw [entryOrInsertWith_of_containsKey _ _ _ h]

theorem setHostRequest_of_absent (req : Request β) (v : String)
    (h : req.headers.containsKey "host" = false)
    (hr : resolveHost req.uri = some v) :
    setHostRequest req = some { req with headers := req.headers ++ [("host", v)] } := by
  simp only [setHostRequest]
  rw [entryOrInsertWith_of_absent _ _ _ v h hr]

theorem setHostRequest_of_absent_panic (req : Request β)
    (h : req.headers.containsKey "host" = false)
    (hr : resolveHost req.uri = none) :
    setHostRequest req = none := by
  simp only [setHostRequest]
  rw [entryOrInsertWith_of_absent_panic _ _ _ h hr]

/-! ### Claim theorems -/

/-- C2: `get_non_default_port` returns `none` when the URI has no
explicit port; `none` for port 443 with a secure scheme; `none` for
port 80 with a non-secure scheme; and in every other case exactly the
URI's explicit port — no other port is ever suppressed. -/
theorem get_non_default_port_spec (uri : Uri) :
    (uri.port = none → get_non_default_port uri = none) ∧
    (uri.port = some 443 → is_schema_secure uri = true →
      get_non_default_port uri = none) ∧
    (uri.port = some 80 → is_schema_secure uri = false →
      get_non_default_port uri = none) ∧
    (∀ p, uri.port = some p →
      ¬(p = 443 ∧ is_schema_secure uri = true) →
      ¬(p = 80 ∧ is_schema_secure uri = false) →
      get_non_default_port uri = some p) := by
  refine ⟨?_, ?_, ?_, ?_⟩
  · intro hp
    unfold get_non_default_port
    split <;> simp_all
  · intro hp hs
    unfold get_non_default_port
    split <;> simp_all
  · intro hp hs
    unfold get_non_default_port
    split <;> simp_all
  · intro p hp h443 h80
    unfold get_non_default_port
    split <;> simp_all

/-- C2 witness: each branch of `get_non_default_port_spec` discharged
at a concrete URI. -/
theorem get_non_default_port_spec_witness :
    get_non_default_port { scheme := some "https", host := some "h", port := none } = none ∧
    get_non_default_port { scheme := some "https", host := some "h", port := some 443 } = none ∧
    get_non_default_port { scheme := some "http", host := some "h", port := some 80 } = none ∧
    get_non_default_port { scheme := some "https", host := some "h", port := some 8443 } = some 8443 :=
  ⟨(get_non_default_port_spec _).1 rfl,
   (get_non_default_port_spec _).2.1 rfl (by decide),
   (get_non_default_port_spec _).2.2.1 rfl (by decide),
   (get_non_default_port_spec _).2.2.2 8443 rfl (by decide) (by decide)⟩

/-- A URI whose scheme is the uppercase spelling "WSS". -/
def uriUpperWSS : Uri :=
  { scheme := some "WSS", host := some "example.org", port := some 443 }

/-- C4 counterexample: the scheme comparison in `is_schema_secure` is
NOT case-insensitive.  At scheme "WSS" the case-insensitive reading of
the spec (`is_secure_scheme_spec`) says `true`, but the source's exact
string match returns `false`: the claimed equivalence fails. -/
theorem is_schema_secure_case_sensitive_cex :
    ¬(is_schema_secure uriUpperWSS = true ↔ is_secure_scheme_spec uriUpperWSS = true) := by
  decide

/-- C4 amended: `is_schema_secure` returns `true` iff the URI's scheme
string is exactly "https" or exactly "wss" (a case-sensitive match on
the stored scheme string); it returns `false` for every other scheme
string and when no scheme is present. -/
theorem is_schema_secure_iff (uri : Uri) :
    is_schema_secure uri = true ↔
      (uri.scheme = some "https" ∨ uri.scheme = some "wss") := by
  cases h : uri.scheme with
  | none => simp [is_schema_secure, h]
  | some s =>
    simp [is_schema_secure, h]
    tauto

/-- C4 amended witness: the equivalence applied at the concrete
scheme "wss". -/
theorem is_schema_secure_iff_witness :
    is_schema_secure { scheme := some "wss", host := none, port := none } = true :=
  (is_schema_secure_iff { scheme := some "wss", host := none, port := none }).mpr
    (Or.inr rfl)

/-- C8: the middleware's readiness check returns exactly the inner
service's readiness result, unchanged — whether ready (with success or
error) or pending — so the middleware never independently blocks or
fails readiness. -/
theorem poll_ready_passthrough (m : SetHost (Service β γ ε κ)) (cx : κ) :
    SetHost.poll_ready m cx = m.inner.pollReady cx :=
  rfl

/-- The request used in witnesses for C1 and C3-like scenarios: `Host`
pre-set to "custom.internal", URI `https://example.org/`. -/
def reqPresetHost : Request Unit :=
  { method := "GET"
    uri := { scheme := some "https", host := some "example.org", port := none }
    version := "HTTP/1.1"
    headers := [("Host", "custom.internal")]
    body := () }

/-- A request with a `Host` header but a URI lacking any host. -/
def reqHostNoUriHost : Request Unit :=
  { method := "GET"
    uri := { scheme := none, host := none, port := none }
    version := "HTTP/1.1"
    headers := [("host", "custom.internal")]
    body := () }

/-- An inner service used by witnesses: echoes the request it was
delegated, so the delegated request is observable in the result. -/
def echoService : Service Unit (Except Unit (Request Unit)) Unit Unit :=
  { pollReady := fun _ => Poll.pending
    call := fun r => Except.ok r }

/-- C1: a `Host` header present on entry (under any capitalisation) is
never replaced: the delegated request is the incoming request itself,
so in particular the stored `Host` value is unchanged, regardless of
the request's URI. -/
theorem set_host_preserves_existing_host (req : Request β)
    (h : req.headers.containsKey "host" = true) :
    setHostRequest req = some req ∧
    (setHostRequest req).map (fun r => r.headers.get "host") =
      some (req.headers.get "host") := by
  have hreq := setHostRequest_of_containsKey req h
  exact ⟨hreq, by rw [hreq]; rfl⟩

/-- C1 witness: a request with `Host: custom.internal` and URI
`https://example.org/` passes through unchanged. -/
theorem set_host_preserves_existing_host_witness :
    setHostRequest reqPresetHost = some reqPresetHost :=
  (set_host_preserves_existing_host reqPresetHost (by decide)).1

/-- C10: when the `Host` header is already present the resolver closure
is never evaluated: the request is delegated unchanged and the call
returns the inner result, even when `uri.host()` is absent or the
resolved string would fail header-value encoding (i.e. even when
`resolveHost` would panic). -/
theorem existing_host_skips_resolver (m : SetHost (Service β γ ε κ))
    (req : Request β) (h : req.headers.containsKey "host" = true) :
    SetHost.call m req = some (m.inner.call req) := by
  unfold SetHost.call
  rw [setHostRequest_of_containsKey req h]

/-- C10 witness: a request whose URI has no host at all — so the
resolver would panic — but which carries a `Host` header is delegated
normally to the inner service. -/
theorem existing_host_skips_resolver_witness :
    resolveHost reqHostNoUriHost.uri = none ∧
    SetHost.call (SetHostLayer.layer echoService) reqHostNoUriHost =
      some (Except.ok reqHostNoUriHost) :=
  ⟨rfl, existing_host_skips_resolver (SetHostLayer.layer echoService)
    reqHostNoUriHost (by decide)⟩

/-- Request to `https://example.org/` with no headers. -/
def reqHttpsNoPort : Request Unit :=
  { method := "GET"
    uri := { scheme := some "https", host := some "example.org", port := none }
    version := "HTTP/1.1"
    headers := []
    body := () }

/-- Request to `http://example.org:8080/` with no headers. -/
def reqHttp8080 : Request Unit :=
  { method := "GET"
    uri := { scheme := some "http", host := some "example.org", port := some 8080 }
    version := "HTTP/1.1"
    headers := []
    body := () }

/-- Request to `wss://example.org:443/ws` with no headers. -/
def reqWss443 : Request Unit :=
  { method := "GET"
    uri := { scheme := some "wss", host := some "example.org", port := some 443 }
    version := "HTTP/1.1"
    headers := []
    body := () }

/-- C5: end-to-end through the middleware: `https://example.org/` gets
`Host: example.org`; `http://example.org:8080/` gets
`Host: example.org:8080`; `wss://example.org:443/` gets
`Host: example.org` (443 suppressed on the secure scheme); and a
request with pre-set `Host: custom.internal` keeps it. -/
theorem set_host_end_to_end :
    (setHostRequest reqHttpsNoPort).map (fun r => r.headers.get "host") =
      some (some "example.org") ∧
    (setHostRequest reqHttp8080).map (fun r => r.headers.get "host") =
      some (some "example.org:8080") ∧
    (setHostRequest reqWss443).map (fun r => r.headers.get "host") =
      some (some "example.org") ∧
    (setHostRequest reqPresetHost).map (fun r => r.headers.get "host") =
      some (some "custom.internal") := by
  refine ⟨by decide, by decide, by decide, by decide⟩

/-- C7: the middleware returns the inner service's result untouched,
with the inner service's own error type: whenever the call path does
not panic, the returned value is exactly `inner.call` applied to the
delegated request, and in particular every error the caller sees is an
error value produced by the inner service. -/
theorem result_passthrough (m : SetHost (Service β (Except ε ρ) ε κ))
    (req r : Request β) (h : setHostRequest req = some r) :
    SetHost.call m req = some (m.inner.call r) ∧
    (∀ e, m.inner.call r = Except.error e →
      SetHost.call m req = some (Except.error e)) := by
  constructor
  · unfold SetHost.call
    rw [h]
  · intro e he
    unfold SetHost.call
    rw [h]
    show some (m.inner.call r) = some (Except.error e)
    rw [he]

/-- An inner service that always fails with the string error "boom". -/
def failService : Service Unit (Except String Unit) String Unit :=
  { pollReady := fun _ => Poll.ready (Except.ok ())
    call := fun _ => Except.error "boom" }

/-- C7 witness: through the middleware, an inner service that fails
with "boom" yields exactly that error, untouched. -/
theorem result_passthrough_witness :
    SetHost.call (SetHostLayer.layer failService) reqHttpsNoPort =
      some (Except.error "boom") :=
  (result_passthrough (SetHostLayer.layer failService) reqHttpsNoPort
    { reqHttpsNoPort with headers := [("host", "example.org")] }
    (by decide)).2 "boom" rfl

theorem headerNameEq_host_host : headerNameEq "host" "host" = true := by
  decide

theorem eraseAll_append_host (hs : HeaderMap) (v : String) :
    (hs ++ [("host", v)]).eraseAll "host" = hs.eraseAll "host" := by
  unfold HeaderMap.eraseAll
  rw [List.filter_append]
  simp [List.filter, headerNameEq_host_host]

/-- C9: the middleware mutates at most the `Host` entry: the request
delegated to the inner service keeps the same method, URI, version,
body, and the same sequence of non-`Host` headers as the incoming
request, and the inner service's result is returned untouched. -/
theorem set_host_frame_effect (m : SetHost (Service β γ ε κ))
    (req r : Request β) (h : setHostRequest req = some r) :
    r.method = req.method ∧ r.uri = req.uri ∧ r.version = req.version ∧
    r.body = req.body ∧
    r.headers.eraseAll "host" = req.headers.eraseAll "host" ∧
    SetHost.call m req = some (m.inner.call r) := by
  cases hc : req.headers.containsKey "host" with
  | true =>
    rw [setHostRequest_of_containsKey req hc] at h
    cases h
    refine ⟨rfl, rfl, rfl, rfl, rfl, ?_⟩
    unfold SetHost.call
    rw [setHostRequest_of_containsKey req hc]
  | false =>
    cases hr : resolveHost req.uri with
    | none =>
      rw [setHostRequest_of_absent_panic req hc hr] at h
      cases h
    | some v =>
      rw [setHostRequest_of_absent req v hc hr] at h
      cases h
      refine ⟨rfl, rfl, rfl, rfl, ?_, ?_⟩
      · exact eraseAll_append_host req.headers v
      · unfold SetHost.call
        rw [setHostRequest_of_absent req v hc hr]

/-- C9 witness: at `http://example.org:8080/`, the delegated request
differs from the incoming one only by the appended `Host` header. -/
theorem set_host_frame_effect_witness :
    ({ reqHttp8080 with
        headers := [("host", "example.org:8080")] } : Request Unit).headers.eraseAll "host" =
      reqHttp8080.headers.eraseAll "host" ∧
    SetHost.call (SetHostLayer.layer echoService) reqHttp8080 =
      some (Except.ok { reqHttp8080 with headers := [("host", "example.org:8080")] }) := by
  have h := set_host_frame_effect (SetHostLayer.layer echoService) reqHttp8080
    { reqHttp8080 with headers := [("host", "example.org:8080")] } (by decide)
  exact ⟨h.2.2.2.2.1, h.2.2.2.2.2⟩

/-- Request with no headers and a URI with no host at all. -/
def reqNoHostNoUri : Request Unit :=
  { method := "GET"
    uri := { scheme := none, host := none, port := none }
    version := "HTTP/1.1"
    headers := []
    body := () }

/-- C6: with no `Host` header present, resolving requires
`uri.host()`: when the URI has no host the whole call aborts
(panic-equivalent, modelled as `none` — not a recoverable error value
and not a silently defaulted request); and under the precondition that
the host is present, the missing-host panic branch is unreachable —
evaluation proceeds past it to the header-value encoding step. -/
theorem missing_host_aborts (m : SetHost (Service β γ ε κ)) (req : Request β)
    (habs : req.headers.containsKey "host" = false) :
    (req.uri.host = none → SetHost.call m req = none) ∧
    (∀ hn, req.uri.host = some hn →
      resolveHost req.uri = HeaderValue.from_str (hostHeaderString hn req.uri)) := by
  constructor
  · intro hh
    unfold SetHost.call
    rw [setHostRequest_of_absent_panic req habs (by unfold resolveHost; rw [hh])]
  · intro hn hh
    unfold resolveHost
    rw [hh]

/-- C6 witness: a host-less URI aborts the call; with
`https://example.org/` the missing-host panic is passed and the
resolver reaches the encoding step. -/
theorem missing_host_aborts_witness :
    SetHost.call (SetHostLayer.layer echoService) reqNoHostNoUri = none ∧
    resolveHost reqHttpsNoPort.uri =
      HeaderValue.from_str (hostHeaderString "example.org" reqHttpsNoPort.uri) :=
  ⟨(missing_host_aborts (SetHostLayer.layer echoService) reqNoHostNoUri
      (by decide)).1 rfl,
   (missing_host_aborts (SetHostLayer.layer echoService) reqHttpsNoPort
      (by decide)).2 "example.org" rfl⟩

/-- C3: when the `Host` header is absent and the URI's host is
present (and the formatted value passes header-value validation, as
every URI host does), the middleware inserts exactly
`"<host>:<port>"` when `get_non_default_port` yields a port, and
exactly `"<host>"` otherwise. -/
theorem inserted_host_value_spec (req : Request β) (hn : String)
    (habs : req.headers.containsKey "host" = false)
    (hh : req.uri.host = some hn)
    (hv : isValidHeaderValue (hostHeaderString hn req.uri) = true) :
    setHostRequest req =
      some { req with
        headers := req.headers ++ [("host", hostHeaderString hn req.uri)] } ∧
    (∀ p, get_non_default_port req.uri = some p →
      hostHeaderString hn req.uri = hn ++ ":" ++ toString p) ∧
    (get_non_default_port req.uri = none → hostHeaderString hn req.uri = hn) := by
  refine ⟨?_, ?_, ?_⟩
  · apply setHostRequest_of_absent req _ habs
    unfold resolveHost
    rw [hh]
    show HeaderValue.from_str (hostHeaderString hn req.uri) =
      some (hostHeaderString hn req.uri)
    simp [HeaderValue.from_str, hv]
  · intro p hp
    unfold hostHeaderString
    rw [hp]
  · intro hp
    unfold hostHeaderString
    rw [hp]

/-- C3 witness: at `http://example.org:8080/` the inserted value is
"example.org:8080"; at `https://example.org/` it is "example.org". -/
theorem inserted_host_value_spec_witness :
    setHostRequest reqHttp8080 =
      some { reqHttp8080 with headers := [("host", "example.org:8080")] } ∧
    hostHeaderString "example.org" reqHttpsNoPort.uri = "example.org" :=
  ⟨by
    have h := (inserted_host_value_spec reqHttp8080 "example.org" (by decide)
      rfl (by decide)).1
    rw [h]
    decide,
   (inserted_host_value_spec reqHttpsNoPort "example.org" (by decide)
      rfl (by decide)).2.2 rfl⟩
